import Mathlib

/-!
Verification development for the Token-Flow-API repository.

Shallow embedding of the core services (flow-graph engine, risk scoring,
tenant gate / quota middleware pipeline, webhook lifecycle, upstream adapter)
translated from the TypeScript sources under `src/`.  Machine reals
(JS `number`) are modelled by `ℚ`; JS `BigInt` token amounts by `ℕ`
(they are decimal strings of unsigned 128-bit integers in the source);
unix block times by `ℤ`.
-/

namespace TokenFlow

/-! ## Data model (src/services/api/src/types.ts) -/

/-- The `Transfer` from types.ts (fields not used by the flow builder -
decimals, instructionIndex, txType, swapDirection, swapInfo - are omitted;
the flow builder reads only the addresses, the amount and the blockTime). -/
structure Transfer where
  signature : String
  fromAddress : String
  toAddress : String
  tokenMint : String
  amount : ℕ
  blockTime : ℤ
  deriving Repr, DecidableEq

/-- The `PathNode` from types.ts.  `amountIn`/`amountOut` are decimal strings of
a BigInt in the source; modelled as `ℕ`.  `timestamp?` is an optional number. -/
structure PathNode where
  address : String
  entityType : Option String
  entityName : Option String
  amountIn : ℕ
  amountOut : ℕ
  timestamp : Option ℤ
  deriving Repr, DecidableEq

/-- The `FlowPath` from types.ts.  `pathId` is a random UUID in the source and is
omitted from the model (no claim concerns it); the optional enrichment fields
`intent`, `intentConfidence`, `riskScore`, `riskLevel` are attached later by
the controller and are not set by `createFlowPath`, so they are omitted too. -/
structure FlowPath where
  startAddress : String
  endAddress : String
  tokenMint : String
  hops : List PathNode
  totalAmount : ℕ
  hopCount : ℕ
  confidenceScore : ℚ
  deriving Repr, DecidableEq

/-- Entity row as seen through `entityService.identifyEntity` (entity.service.ts):
only `entityType` and `name` are read by the flow builder. -/
structure EntityInfo where
  entityType : String
  name : Option String
  deriving Repr, DecidableEq

/-! ## Confidence scoring (flow-builder.service.ts, `calculateConfidence`) -/

/-- Clamp to [0,1]: the source expression `Math.max(0, Math.min(1, score))`, with
`Math.min` / `Math.max` spelled out as comparisons. -/
def clamp01 (q : ℚ) : ℚ :=
  let m := if q ≤ 1 then q else 1
  if 0 ≤ m then m else 0

/-- JS `Math.abs` on an integer. -/
def intAbs (x : ℤ) : ℤ := if x < 0 then -x else x

/-- The multiplicative factor contributed by one consecutive hop pair in
`calculateConfidence`.  Mirrors the loop body: when `currentNode.amountIn`
is zero the score is multiplied by 0.5 and the iteration `continue`s (so the
DEX and time factors are also skipped); otherwise the ratio is
`Number(prevAmount * 100n / currentAmount) / 100` - an integer division
truncated to two decimals - bucketed into ×1.0 / ×0.95 / ×0.85 / ×0.70,
then ×0.98 if the current node is a DEX, then ×0.9 if the absolute time gap
exceeds 86400 s (both timestamps present and non-zero: JS truthiness). -/
def hopFactor (prevNode currentNode : PathNode) : ℚ :=
  if currentNode.amountIn = 0 then 1/2
  else
    let ratio : ℚ := ((100 * prevNode.amountOut / currentNode.amountIn : ℕ) : ℚ) / 100
    let ratioFactor : ℚ :=
      if 95/100 ≤ ratio ∧ ratio ≤ 105/100 then 1
      else if 90/100 ≤ ratio ∧ ratio ≤ 110/100 then 95/100
      else if 80/100 ≤ ratio ∧ ratio ≤ 120/100 then 85/100
      else 7/10
    let dexFactor : ℚ := if currentNode.entityType = some "dex" then 98/100 else 1
    let timeFactor : ℚ :=
      match prevNode.timestamp, currentNode.timestamp with
      | some tp, some tc => if tp ≠ 0 ∧ tc ≠ 0 ∧ 86400 < intAbs (tc - tp) then 9/10 else 1
      | _, _ => 1
    ratioFactor * dexFactor * timeFactor

/-- The `calculateConfidence` from flow-builder.service.ts: 0 for an empty hop
list, 1.0 for a single hop, otherwise the product over consecutive hop pairs
(starting from 1.0) of `hopFactor`, clamped to [0,1]. -/
def calculateConfidence : List PathNode → ℚ
  | [] => 0
  | [_] => 1
  | path =>
      clamp01 ((path.zip path.tail).foldl (fun score pc => score * hopFactor pc.1 pc.2) 1)

/-- The `createFlowPath` from flow-builder.service.ts (uuid omitted). -/
def createFlowPath (nodes : List PathNode) (tokenMint : String) : FlowPath :=
  { startAddress := ((nodes.head?).map (·.address)).getD ""
    endAddress := ((nodes.getLast?).map (·.address)).getD ""
    tokenMint := tokenMint
    hops := nodes
    totalAmount := (nodes.map (·.amountIn)).sum
    hopCount := nodes.length
    confidenceScore := calculateConfidence nodes }

/-! ## Forward traversal (flow-builder.service.ts, `exploreForward`)

The upstream is modelled by an environment `env : String → List Transfer`
standing for `heliusService.getTokenTransfers(address, tokenMint, 50)`
(the per-address enhanced history for the analysed mint), and entity lookup
by `entity : String → Option EntityInfo` standing for
`entityService.identifyEntity`.  The JS `Set` of visited addresses is a
duplicate-free `List String` (insertion only happens after a membership
check, so its length equals the size of the set). -/

/-- The `getTransfersFromAddress`: fetch the address history and keep outgoing
transfers.  The time-range filter is computed but unused in the source
("Skip time filter for now"), so only the direction filter is applied. -/
def getTransfersFromAddress (env : String → List Transfer) (address : String) :
    List Transfer :=
  (env address).filter (fun t => t.fromAddress = address)

/-- Insert a transfer into an association list grouped by key, preserving
JS `Map` insertion order (first occurrence of a key fixes its position). -/
def insertGrouped : List (String × List Transfer) → String → Transfer →
    List (String × List Transfer)
  | [], key, t => [(key, [t])]
  | (k, l) :: rest, key, t =>
      if k = key then (k, l ++ [t]) :: rest
      else (k, l) :: insertGrouped rest key t

/-- The `aggregateTransfersByDestination`: group transfers by `toAddress`
(JS `Map`, iteration in insertion order). -/
def aggregateTransfersByDestination (transfers : List Transfer) :
    List (String × List Transfer) :=
  transfers.foldl (fun acc t => insertGrouped acc t.toAddress t) []

/-- Build the `PathNode` appended for one aggregated destination:
amounts summed over the group, entity resolved, timestamp taken from the
first transfer of the group (`transferList[0].blockTime`). -/
def mkPathNode (entity : String → Option EntityInfo) (toAddress : String)
    (transferList : List Transfer) : PathNode :=
  let totalAmount := (transferList.map (·.amount)).sum
  { address := toAddress
    entityType := (entity toAddress).map (·.entityType)
    entityName := (entity toAddress).bind (·.name)
    amountIn := totalAmount
    amountOut := totalAmount
    timestamp := (transferList.head?).map (·.blockTime) }

/-- The `paths.push(this.createFlowPath(currentPath, tokenMint))` guarded by
`currentPath.length > 0`. -/
def emitPath (tokenMint : String) (currentPath : List PathNode)
    (paths : List FlowPath) : List FlowPath :=
  if currentPath.isEmpty then paths else paths ++ [createFlowPath currentPath tokenMint]

/-- The `for` loop of `exploreForward` over the aggregated destinations:
each child builds its node, recurses via the continuation `rec` (the explorer
one depth deeper), and threads the mutable `visited` / `paths` state into the
next sibling. -/
def exploreForwardChildren
    (rec : String → List PathNode → List String → List FlowPath →
      List String × List FlowPath)
    (entity : String → Option EntityInfo) :
    List (String × List Transfer) → List PathNode → List String → List FlowPath →
      List String × List FlowPath
  | [], _, visited, paths => (visited, paths)
  | (toAddress, transferList) :: rest, currentPath, visited, paths =>
      let node := mkPathNode entity toAddress transferList
      let r := rec toAddress (currentPath ++ [node]) visited paths
      exploreForwardChildren rec entity rest currentPath r.1 r.2

/-- The `exploreForward` from flow-builder.service.ts, recursing on the remaining
depth `rd = maxDepth - depth` (the source guard `depth >= maxDepth` is
`rd = 0`).  Returns the final `(visited, paths)` state.  Note the three exit
paths of the source: the safety-bound exit (before the visited insertion),
the already-visited exit, and the no-transfers leaf exit - the last one
returns WITHOUT the `visited.delete(currentAddress)` that only the normal
return performs. -/
def exploreForward (env : String → List Transfer)
    (entity : String → Option EntityInfo) (tokenMint : String) :
    ℕ → String → List PathNode → List String → List FlowPath →
      List String × List FlowPath
  | 0, _, currentPath, visited, paths =>
      (visited, emitPath tokenMint currentPath paths)
  | rd + 1, currentAddress, currentPath, visited, paths =>
      if 10000 < visited.length ∨ 1000 < paths.length then
        (visited, emitPath tokenMint currentPath paths)
      else if currentAddress ∈ visited then
        (visited, paths)
      else
        let visited1 := currentAddress :: visited
        let transfers := getTransfersFromAddress env currentAddress
        if transfers.isEmpty then
          (visited1, emitPath tokenMint currentPath paths)
        else
          let agg := aggregateTransfersByDestination transfers
          let r := exploreForwardChildren
            (exploreForward env entity tokenMint rd) entity agg
            currentPath visited1 paths
          (r.1.erase currentAddress, r.2)

/-- The `buildForwardPath`: run the exploration from the start address with empty
path, visited set and path list, and return the collected paths (the source
then upserts each one into `flow_paths`). -/
def buildForwardPath (env : String → List Transfer)
    (entity : String → Option EntityInfo) (tokenMint : String)
    (maxDepth : ℕ) (startAddress : String) : List FlowPath :=
  (exploreForward env entity tokenMint maxDepth startAddress [] [] []).2

/-! ## Risk scoring (src/unnamed/part_009, `RiskScoringService.assessRisk`)

`assessRisk` runs five independent checks whose boolean outcomes fully
determine the score, the risk level and the flag list; the checks themselves
(BFS over the transfers table, velocity count, peel-chain scan, cycle
detection) are abstracted by a record of their outcomes. -/

/-- Outcomes of the five checks performed by `assessRisk`, in the terms of the source: `checkMixerProximity(..).within2Hops`,
`checkVelocity(..).transfersPerHour > 100`,
`detectCircularFlows(..).length > 0`, `detectPeelChain(..).detected`,
`checkSanctionedProximity(..).direct` / `.within2Hops`. -/
structure RiskChecks where
  mixerWithin2Hops : Bool
  velocityOver100PerHour : Bool
  circularFlowsFound : Bool
  peelChainDetected : Bool
  sanctionedDirect : Bool
  sanctionedWithin2Hops : Bool
  deriving Repr, DecidableEq

/-- The flag list pushed by `assessRisk`, in push order, as
(type, severity) pairs. -/
def assessRiskFlags (c : RiskChecks) : List (String × String) :=
  (if c.mixerWithin2Hops then [("mixer_proximity", "critical")] else []) ++
  (if c.velocityOver100PerHour then [("high_velocity", "warning")] else []) ++
  (if c.circularFlowsFound then [("circular_flow", "warning")] else []) ++
  (if c.peelChainDetected then [("peel_chain", "critical")] else []) ++
  (if c.sanctionedDirect then [("sanctioned_direct", "critical")]
   else if c.sanctionedWithin2Hops then [("sanctioned_proximity", "critical")]
   else [])

/-- The accumulated `score` variable of `assessRisk` just before
`scoreToLevel` is applied: +40 mixer, +20 velocity, +25 circular, +35 peel,
then either overwritten with 100 on a direct sanctions hit or incremented
by 50 on 2-hop sanctions proximity. -/
def assessRiskRawScore (c : RiskChecks) : ℕ :=
  let s1 := 0 + (if c.mixerWithin2Hops then 40 else 0)
  let s2 := s1 + (if c.velocityOver100PerHour then 20 else 0)
  let s3 := s2 + (if c.circularFlowsFound then 25 else 0)
  let s4 := s3 + (if c.peelChainDetected then 35 else 0)
  if c.sanctionedDirect then 100
  else s4 + (if c.sanctionedWithin2Hops then 50 else 0)

/-- The `scoreToLevel` from part_009. -/
def scoreToLevel (score : ℕ) : String :=
  if 75 ≤ score then "critical"
  else if 50 ≤ score then "high"
  else if 25 ≤ score then "medium"
  else "low"

/-- The `RiskAssessment` record assembled by `assessRisk`
(address and timestamp omitted): `riskScore := Math.min(score, 100)`,
`riskLevel := scoreToLevel(score)` (computed on the unclamped score). -/
structure RiskAssessmentResult where
  riskScore : ℕ
  riskLevel : String
  flags : List (String × String)
  deriving Repr, DecidableEq

/-- The `assessRisk` as a function of the check outcomes. -/
def assessRisk (c : RiskChecks) : RiskAssessmentResult :=
  { riskScore := min (assessRiskRawScore c) 100
    riskLevel := scoreToLevel (assessRiskRawScore c)
    flags := assessRiskFlags c }

/-! ## Tenant gate: the /api/v1/analyze/path middleware pipeline
(src/services/api/src/index.ts, auth / rate-limit / usage-tracking
middleware)

An incoming request is modelled by the facts each middleware consults;
each Express layer either responds (ending dispatch) or calls `next()`.
`index.ts` registers the route
`app.post("/api/v1/analyze/path", authenticateApiKey, rateLimiter,
validateSolanaAddress, validateTokenMint, validateMaxDepth,
validateTimeRange, handler)` first, and only afterwards mounts
`app.use("/api/v1/*", authenticateApiKey)`,
`app.use("/api/v1/*", usageTrackingMiddleware)` and
`app.use("/api/v1/*", addUsageHeaders)`; Express runs layers in
registration order, so those three sit after the handler of the route itself in the
dispatch list. -/

/-- Request facts consulted by the middleware chain for
`POST /api/v1/analyze/path`. -/
structure ApiRequest where
  hasApiKeyHeader : Bool
  apiKeyValid : Bool
  hasActiveSubscription : Bool
  currentUsage : ℕ
  monthlyQuota : ℕ
  billingPeriodEnd : ℤ
  withinRateLimit : Bool
  usageLogRateOk : Bool
  validAddress : Bool
  validToken : Bool
  validMaxDepth : Bool
  validTimeRange : Bool
  deriving Repr, DecidableEq

/-- What one Express layer does with a request: send a response
(status, error tag, optional quota reset date) or pass to the next layer. -/
inductive MwStep where
  | respond (status : ℕ) (tag : String) (resetDate : Option ℤ)
  | next
  deriving Repr, DecidableEq

/-- The `authenticateApiKey` (auth.middleware): 401 on missing header, 401 on no
matching active key row, else attach context and `next()`. -/
def authenticateApiKey (r : ApiRequest) : MwStep :=
  if ¬r.hasApiKeyHeader then .respond 401 "API key required" none
  else if ¬r.apiKeyValid then .respond 401 "Invalid API key" none
  else .next

/-- The `rateLimiter` (rate-limit.middleware): 429 when the per-key
sliding-minute limiter rejects, else `next()`. -/
def rateLimiterMw (r : ApiRequest) : MwStep :=
  if r.withinRateLimit then .next else .respond 429 "Rate limit exceeded" none

/-- The `validateSolanaAddress("address")` (validation.middleware). -/
def validateSolanaAddressMw (r : ApiRequest) : MwStep :=
  if r.validAddress then .next else .respond 400 "Invalid Solana address" none

/-- The `validateTokenMint("token")` (validation.middleware). -/
def validateTokenMintMw (r : ApiRequest) : MwStep :=
  if r.validToken then .next else .respond 400 "Invalid token mint" none

/-- The `validateMaxDepth` (validation.middleware). -/
def validateMaxDepthMw (r : ApiRequest) : MwStep :=
  if r.validMaxDepth then .next else .respond 400 "Invalid maxDepth" none

/-- The `validateTimeRange` (validation.middleware). -/
def validateTimeRangeMw (r : ApiRequest) : MwStep :=
  if r.validTimeRange then .next else .respond 400 "Invalid timeRange" none

/-- Terminal handler of the route,
`(req, res) => analysisController.analyzePath(req, res)`: it runs the flow
builder and always sends the analysis response itself - it never calls
`next()`, so dispatch ends here whenever it is reached. -/
def analyzePathHandler (_ : ApiRequest) : MwStep :=
  .respond 200 "path analysis" none

/-- The `is_over_quota` (part_001 SQL function, called through
`isUserOverQuota`): no active subscription counts as over quota, otherwise
`current_usage >= monthly_quota`. -/
def isOverQuota (r : ApiRequest) : Bool :=
  ¬r.hasActiveSubscription ∨ r.monthlyQuota ≤ r.currentUsage

/-- The `trackUsageAndEnforceQuota` (usage-tracking.middleware): skip without
user context; 429 `Quota exceeded` carrying `resetDate =
billing_period_end` when over quota; 429 on the usage-log rate check; else
increment counters asynchronously and `next()`. -/
def trackUsageAndEnforceQuota (r : ApiRequest) : MwStep :=
  if ¬(r.apiKeyValid ∧ r.hasApiKeyHeader) then .next
  else if isOverQuota r then .respond 429 "Quota exceeded" (some r.billingPeriodEnd)
  else if ¬r.usageLogRateOk then .respond 429 "Rate limit exceeded" none
  else .next

/-- The `addUsageHeaders` (usage-tracking.middleware): sets headers only,
always `next()`. -/
def addUsageHeadersMw (_ : ApiRequest) : MwStep := .next

/-- The dispatch list an Express request to `POST /api/v1/analyze/path`
traverses, in the registration order of index.ts: the stack of the route itself
first, then the later-mounted `app.use("/api/v1/*", ...)` layers. -/
def analyzePathPipeline : List (ApiRequest → MwStep) :=
  [authenticateApiKey, rateLimiterMw, validateSolanaAddressMw,
   validateTokenMintMw, validateMaxDepthMw, validateTimeRangeMw,
   analyzePathHandler,
   authenticateApiKey, trackUsageAndEnforceQuota, addUsageHeadersMw]

/-- Express dispatch: run layers in order until one responds. -/
def dispatch : List (ApiRequest → MwStep) → ApiRequest →
    Option (ℕ × String × Option ℤ)
  | [], _ => none
  | mw :: rest, r =>
      match mw r with
      | .respond s t d => some (s, t, d)
      | .next => dispatch rest r

/-! ## Webhook lifecycle (src/services/api/src/controllers/user.controller.ts,
`verifyWebhookSignature` / `handleApixWebhook`, and the SQL functions of
src/unnamed/part_001)

Persistent rows relevant to the webhook handlers.  Dates are abstract
integers; the SQL interval arithmetic `+ INTERVAL "1 month"` is a parameter
`addMonth : ℤ → ℤ`.  UUID generation is abstracted by deterministic ids. -/

/-- A `users` row (columns read/written by the webhook handlers). -/
structure UserRow where
  id : String
  email : String
  subscriptionPlan : String
  subscriptionStatus : String
  apixUserId : Option String
  deriving Repr, DecidableEq

/-- A `subscriptions` row (columns read/written by the webhook handlers). -/
structure SubRow where
  userId : String
  plan : String
  monthlyQuota : ℕ
  rateLimitPerMinute : ℕ
  currentUsage : ℕ
  billingPeriodStart : ℤ
  billingPeriodEnd : ℤ
  status : String
  priceCents : ℕ
  deriving Repr, DecidableEq

/-- An `api_keys` row (only ownership and activity matter here; the hash and
prefix are generated from random bytes in the source). -/
structure KeyRow where
  userId : String
  active : Bool
  deriving Repr, DecidableEq

/-- The slice of database state the webhook handlers touch.  `webhookLog`
models the append-only `webhook_events` audit insert done before the event
switch. -/
structure Db where
  users : List UserRow
  subs : List SubRow
  keys : List KeyRow
  webhookLog : List String
  deriving Repr, DecidableEq

/-- The `plan_limits` seed rows of part_001:
(monthly_quota, rate_limit_per_minute, price_cents). -/
def planLimits : String → Option (ℕ × ℕ × ℕ)
  | "starter" => some (1000, 10, 1000)
  | "pro" => some (10000, 60, 5000)
  | "enterprise" => some (100000, 600, 20000)
  | _ => none

/-- The `reset_monthly_usage()` (part_001): a GLOBAL update of every
subscription with `billing_period_end <= CURRENT_DATE AND status = active`, zeroing `current_usage` and advancing the billing window by one
month.  It takes no user parameter. -/
def resetMonthlyUsage (today : ℤ) (addMonth : ℤ → ℤ) (subs : List SubRow) :
    List SubRow :=
  subs.map fun s =>
    if s.billingPeriodEnd ≤ today ∧ s.status = "active" then
      { s with currentUsage := 0
               billingPeriodStart := s.billingPeriodEnd
               billingPeriodEnd := addMonth s.billingPeriodEnd }
    else s

/-- The `cancelUserSubscription` (user.service.ts): mark the active
subscription of the user cancelled and mirror the status onto the user row. -/
def cancelUserSubscription (userId : String) (db : Db) : Db :=
  { db with
    subs := db.subs.map fun s =>
      if s.userId = userId ∧ s.status = "active" then
        { s with status := "cancelled" } else s
    users := db.users.map fun u =>
      if u.id = userId then { u with subscriptionStatus := "cancelled" } else u }

/-- The `updateUserPlan` (user.service.ts): rewrite the plan of the active
subscription, its, quota, rate limit and price from `plan_limits`, and mirror the plan
onto the user row.  Returns `none` when the plan is unknown (the source
throws `Plan not found`, surfaced as a 500 by the webhook handler). -/
def updateUserPlan (userId : String) (newPlan : String) (db : Db) : Option Db :=
  match planLimits newPlan with
  | none => none
  | some (quota, rate, price) => some
    { db with
      subs := db.subs.map fun s =>
        if s.userId = userId ∧ s.status = "active" then
          { s with plan := newPlan, monthlyQuota := quota,
                   rateLimitPerMinute := rate, priceCents := price }
        else s
      users := db.users.map fun u =>
        if u.id = userId then { u with subscriptionPlan := newPlan } else u }

/-- The `createUser` (user.service.ts): look up `plan_limits` (default
starter), insert the user, an active subscription with `current_usage = 0`
and a one-month billing window, and one active API key.  The generated UUID
is abstracted as a function of the existing row count.  Returns `none` when
the plan is unknown (the source throws). -/
def createUser (email : String) (plan : Option String)
    (apixUserId : Option String) (today : ℤ) (addMonth : ℤ → ℤ) (db : Db) :
    Option Db :=
  match planLimits (plan.getD "starter") with
  | none => none
  | some (quota, rate, price) =>
    let uid := "user-" ++ toString db.users.length
    some { db with
      users := db.users ++ [{ id := uid, email := email
                              subscriptionPlan := plan.getD "starter"
                              subscriptionStatus := "active"
                              apixUserId := apixUserId }]
      subs := db.subs ++ [{ userId := uid, plan := plan.getD "starter"
                            monthlyQuota := quota, rateLimitPerMinute := rate
                            currentUsage := 0, billingPeriodStart := today
                            billingPeriodEnd := addMonth today
                            status := "active", priceCents := price }]
      keys := db.keys ++ [{ userId := uid, active := true }] }

/-- An incoming `POST /webhooks/apix` request.  `timestampAge` is how many
seconds in the past the `timestamp` field of the payload lies at receipt; it is
carried in every payload but - as the definitions below show - never read by
`verifyWebhookSignature` or `handleApixWebhook`.  Signature verification is
abstracted by its outcome (`signatureValid`: the HMAC-SHA256 of the body
under `APIX_WEBHOOK_SECRET` matches the `x-webhook-signature` header), and
the email-format check `isValidEmail` by `emailValid`. -/
structure WebhookReq where
  event : String
  apixUserId : Option String
  email : Option String
  emailValid : Bool
  plan : Option String
  newPlan : Option String
  timestampAge : ℤ
  secretConfigured : Bool
  signaturePresent : Bool
  signatureValid : Bool
  deriving Repr, DecidableEq

/-- The `verifyWebhookSignature` middleware: 500 if the secret is not
configured, 401 if the header is missing, 401 if the constant-time HMAC
comparison fails, otherwise `next()` (modelled as `none`).  It performs no
timestamp or replay check. -/
def verifyWebhookSignature (r : WebhookReq) : Option ℕ :=
  if ¬r.secretConfigured then some 500
  else if ¬r.signaturePresent then some 401
  else if ¬r.signatureValid then some 401
  else none

/-- The `getUserByApixId` (user.service.ts). -/
def getUserByApixId (apixUserId : String) (db : Db) : Option UserRow :=
  db.users.find? (fun u => u.apixUserId = some apixUserId)

/-- The `handleUserSubscribed`: 400 on missing fields or invalid email, 200 if
the external user already exists (no change), else create user +
subscription + key and respond 201. -/
def handleUserSubscribed (r : WebhookReq) (today : ℤ) (addMonth : ℤ → ℤ)
    (db : Db) : ℕ × Db :=
  match r.apixUserId, r.email with
  | some aid, some email =>
      if ¬r.emailValid then (400, db)
      else
        match getUserByApixId aid db with
        | some _ => (200, db)
        | none =>
            match createUser email r.plan (some aid) today addMonth db with
            | some db' => (201, db')
            | none => (500, db)
  | _, _ => (400, db)

/-- The `handlePlanChanged`: 400 on missing fields, 404 on unknown external
user, 500 when `updateUserPlan` throws (unknown plan), else 200. -/
def handlePlanChanged (r : WebhookReq) (db : Db) : ℕ × Db :=
  match r.apixUserId, r.newPlan with
  | some aid, some newPlan =>
      match getUserByApixId aid db with
      | none => (404, db)
      | some u =>
          match updateUserPlan u.id newPlan db with
          | some db' => (200, db')
          | none => (500, db)
  | _, _ => (400, db)

/-- The `handleUserCancelled`: 400 on missing field, 404 on unknown external
user, else cancel the subscription and respond 200. -/
def handleUserCancelled (r : WebhookReq) (db : Db) : ℕ × Db :=
  match r.apixUserId with
  | some aid =>
      match getUserByApixId aid db with
      | none => (404, db)
      | some u => (200, cancelUserSubscription u.id db)
  | none => (400, db)

/-- The `handleSubscriptionRenewed`: 400 on missing field, 404 on unknown
external user, else run the GLOBAL `reset_monthly_usage()` SQL function
(the source runs `db.query("SELECT reset_monthly_usage()")` - no per-user filter, no
reactivation) and respond 200. -/
def handleSubscriptionRenewed (r : WebhookReq) (today : ℤ)
    (addMonth : ℤ → ℤ) (db : Db) : ℕ × Db :=
  match r.apixUserId with
  | some aid =>
      match getUserByApixId aid db with
      | none => (404, db)
      | some _ => (200, { db with subs := resetMonthlyUsage today addMonth db.subs })
  | none => (400, db)

/-- The `handleApixWebhook`: log the event to `webhook_events`, then switch on
`event`.  The `default` branch responds with STATUS 200 and the message
"Webhook received but event type not handled". -/
def handleApixWebhook (r : WebhookReq) (today : ℤ) (addMonth : ℤ → ℤ)
    (db : Db) : ℕ × Db :=
  let db0 := { db with webhookLog := db.webhookLog ++ [r.event] }
  match r.event with
  | "user.subscribed" => handleUserSubscribed r today addMonth db0
  | "user.plan_changed" => handlePlanChanged r db0
  | "user.cancelled" => handleUserCancelled r db0
  | "user.renewed" => handleSubscriptionRenewed r today addMonth db0
  | _ => (200, db0)

/-- The full `POST /webhooks/apix` route:
`verifyWebhookSignature` then `handleApixWebhook`. -/
def webhookEndpoint (r : WebhookReq) (today : ℤ) (addMonth : ℤ → ℤ)
    (db : Db) : ℕ × Db :=
  match verifyWebhookSignature r with
  | some status => (status, db)
  | none => handleApixWebhook r today addMonth db

/-! ## Upstream adapter (src/unnamed/part_011, `HeliusService`)

The constructor of `HeliusService` builds `new CircuitBreaker(5, 60000, 2)`;
the fetch methods below are translated as they are written - none of them
calls `this.circuitBreaker` or `retryWithBackoff`.  The success channel of
`getTokenTransfers` is the parsed transfer list; an `Except` error channel
models a rejected Promise (an error surfaced to the caller), which the
function never produces on an upstream HTTP failure. -/

/-- One entry of the `tokenTransfers` array of the enhanced API.  The JS float
`tokenAmount` is modelled by `ℚ`; the amount conversion
`BigInt(Math.floor((tt.tokenAmount || 0) * 10 ** (tt.decimals || 6)))`
becomes an exact floor. -/
structure RawTokenTransfer where
  mint : String
  fromUserAccount : Option String
  fromTokenAccount : String
  toUserAccount : Option String
  toTokenAccount : String
  tokenAmount : ℚ
  decimals : Option ℕ
  deriving Repr, DecidableEq

/-- One enhanced transaction returned by
`https://api.helius.xyz/v0/addresses/{address}/transactions`. -/
structure RawEnhancedTx where
  signature : String
  timestamp : ℤ
  tokenTransfers : Option (List RawTokenTransfer)
  deriving Repr, DecidableEq

/-- The outcome of one `fetch` of the enhanced-transactions endpoint. -/
inductive FetchOutcome where
  | ok (txs : List RawEnhancedTx)
  | httpError (status : ℕ)
  deriving Repr, DecidableEq

/-- The circuit-breaker configuration constructed (and never consulted) by
the `HeliusService` constructor: failure threshold 5, open for 60000 ms,
2 successes to close. -/
def heliusCircuitBreakerParams : ℕ × ℕ × ℕ := (5, 60000, 2)

/-- The inner loop of `getTokenTransfers`: flatten the
`tokenTransfers` of each transaction, keeping entries whose `mint` matches, and convert the
decimal amount to an integer. -/
def flattenTokenTransfers (tokenMint : String) (txs : List RawEnhancedTx) :
    List Transfer :=
  txs.foldl (fun acc tx =>
    match tx.tokenTransfers with
    | none => acc
    | some tts =>
        acc ++ (tts.filterMap fun tt =>
          if tt.mint ≠ tokenMint then none
          else some
            { signature := tx.signature
              fromAddress := (tt.fromUserAccount).getD tt.fromTokenAccount
              toAddress := (tt.toUserAccount).getD tt.toTokenAccount
              tokenMint := tt.mint
              amount := (⌊tt.tokenAmount * (10 : ℚ) ^ ((tt.decimals).getD 6)⌋).toNat
              blockTime := tx.timestamp })) []

/-- The `getTokenTransfers` (part_011): return the cache hit if present,
otherwise make A SINGLE `fetch` (attempt 0 of the attempt sequence
`upstream`); on `!response.ok` log and `return []` - a normal empty result,
with no retry, no circuit-breaker consultation and no surfaced
Upstream* error; on success flatten and cache. -/
def getTokenTransfers (tokenMint : String) (cached : Option (List Transfer))
    (upstream : ℕ → FetchOutcome) : Except String (List Transfer) :=
  match cached with
  | some c => .ok c
  | none =>
      match upstream 0 with
      | .httpError _ => .ok []
      | .ok txs => .ok (flattenTokenTransfers tokenMint txs)

/-! ## Claim-side definitions (refinement targets, written from the words of
the spec and the claims, to be compared with the source embeddings above) -/

/-- Claim C3 weight sum: sanctioned within 2 hops +50, mixer within 2 hops
+40, peel chain +35, circular flow +25, velocity +20. -/
def claimWeightSum (c : RiskChecks) : ℕ :=
  (if c.sanctionedWithin2Hops then 50 else 0) +
  (if c.mixerWithin2Hops then 40 else 0) +
  (if c.peelChainDetected then 35 else 0) +
  (if c.circularFlowsFound then 25 else 0) +
  (if c.velocityOver100PerHour then 20 else 0)

/-- Claim C3 level derivation: low for score < 25, medium for < 50, high
for < 75, critical otherwise. -/
def claimLevel (score : ℕ) : String :=
  if score < 25 then "low"
  else if score < 50 then "medium"
  else if score < 75 then "high"
  else "critical"

/-- Claim C8 ratio rule, with the EXACT ratio `prevOut / currIn` as the
claim words it (rational division; the source instead truncates to two
decimals first). -/
def claimRatioFactorExact (prevOut currIn : ℕ) : ℚ :=
  let r : ℚ := (prevOut : ℚ) / (currIn : ℚ)
  if 95/100 ≤ r ∧ r ≤ 105/100 then 1
  else if 90/100 ≤ r ∧ r ≤ 110/100 then 95/100
  else if 80/100 ≤ r ∧ r ≤ 120/100 then 85/100
  else 7/10

/-- Claim C8 per-pair factor: exact-ratio bucket, times 0.98 when the
current node is a DEX, times 0.9 when the hop time gap exceeds 24 h. -/
def claimHopFactorExact (prevNode currentNode : PathNode) : ℚ :=
  claimRatioFactorExact prevNode.amountOut currentNode.amountIn *
  (if currentNode.entityType = some "dex" then 98/100 else 1) *
  (match prevNode.timestamp, currentNode.timestamp with
   | some tp, some tc => if tp ≠ 0 ∧ tc ≠ 0 ∧ 86400 < intAbs (tc - tp) then 9/10 else 1
   | _, _ => 1)

/-- Claim C8 recomputation: start from 1.0, multiply the per-pair factors
over consecutive hops, clamp to [0,1]. -/
def specConfidenceExact (hops : List PathNode) : ℚ :=
  clamp01 (((hops.zip hops.tail).map fun pc => claimHopFactorExact pc.1 pc.2).prod)

/-- Amended C8 ratio rule: the ratio is the two-decimal truncation of the source
`floor(100 * prevOut / currIn) / 100` rather than the exact quotient. -/
def amendedRatioFactor (prevOut currIn : ℕ) : ℚ :=
  let r : ℚ := ((100 * prevOut / currIn : ℕ) : ℚ) / 100
  if 95/100 ≤ r ∧ r ≤ 105/100 then 1
  else if 90/100 ≤ r ∧ r ≤ 110/100 then 95/100
  else if 80/100 ≤ r ∧ r ≤ 120/100 then 85/100
  else 7/10

/-- Amended C8 per-pair factor: when the current hop has `amountIn = 0` the
pair contributes 0.5 and the DEX/time factors are skipped; otherwise the
truncated-ratio bucket times the DEX and time factors. -/
def amendedHopFactor (prevNode currentNode : PathNode) : ℚ :=
  if currentNode.amountIn = 0 then 1/2
  else
    amendedRatioFactor prevNode.amountOut currentNode.amountIn *
    (if currentNode.entityType = some "dex" then 98/100 else 1) *
    (match prevNode.timestamp, currentNode.timestamp with
     | some tp, some tc => if tp ≠ 0 ∧ tc ≠ 0 ∧ 86400 < intAbs (tc - tp) then 9/10 else 1
     | _, _ => 1)

/-- Amended C8 recomputation: 0 for an empty hop list, otherwise the product
of the amended per-pair factors clamped to [0,1] (a single hop has no pairs,
so its confidence is 1). -/
def specConfidenceAmended (hops : List PathNode) : ℚ :=
  if hops = [] then 0
  else clamp01 (((hops.zip hops.tail).map fun pc => amendedHopFactor pc.1 pc.2).prod)

/-! ## Concrete scenario inputs -/

/-- The mint of scenario 1 of the spec. -/
def chainMint : String := "EPjFWdd5AufqSSqeM2qN1xzybapC8G4wEGGkZwyTDt1v"

/-- One edge of the A to E chain: 1 000 000 units. -/
def chainTransfer (f t : String) (bt : ℤ) : Transfer :=
  { signature := "sig-" ++ f ++ t, fromAddress := f, toAddress := t
    tokenMint := chainMint, amount := 1000000, blockTime := bt }

/-- The per-address enhanced histories for the chain A to B to C to D to E
with one transfer of 1 000 000 per edge (each address sees its incident
edges, as the upstream returns). -/
def chainEnv : String → List Transfer
  | "A" => [chainTransfer "A" "B" 1000]
  | "B" => [chainTransfer "A" "B" 1000, chainTransfer "B" "C" 2000]
  | "C" => [chainTransfer "B" "C" 2000, chainTransfer "C" "D" 3000]
  | "D" => [chainTransfer "C" "D" 3000, chainTransfer "D" "E" 4000]
  | "E" => [chainTransfer "D" "E" 4000]
  | _ => []

/-- Entity lookup finding nothing (plain wallets). -/
def noEntity : String → Option EntityInfo := fun _ => none

/-- The paths produced for scenario 1 (forward from A, maxDepth 5). -/
def chainPaths : List FlowPath := buildForwardPath chainEnv noEntity chainMint 5 "A"

/-- Mint for the visited-set scenario. -/
def leakMint : String := "MINTX"

/-- An edge for the visited-set scenario. -/
def leakTransfer (f t : String) (bt : ℤ) : Transfer :=
  { signature := "sig-" ++ f ++ t, fromAddress := f, toAddress := t
    tokenMint := leakMint, amount := 10, blockTime := bt }

/-- Transfer graph A to B, A to C, C to B: B is a leaf reached by two
branches. -/
def leakEnv : String → List Transfer
  | "A" => [leakTransfer "A" "B" 1000, leakTransfer "A" "C" 1000]
  | "B" => [leakTransfer "A" "B" 1000, leakTransfer "C" "B" 2000]
  | "C" => [leakTransfer "A" "C" 1000, leakTransfer "C" "B" 2000]
  | _ => []

/-- Final (visited, paths) state of the forward exploration from A over
`leakEnv`. -/
def leakResult : List String × List FlowPath :=
  exploreForward leakEnv noEntity leakMint 5 "A" [] [] []

/-- An authenticated, rate-cleared, well-formed request whose active
subscription sits exactly at its quota (starter: 1000 of 1000), with
billing period end 777. -/
def overQuotaRequest : ApiRequest :=
  { hasApiKeyHeader := true, apiKeyValid := true, hasActiveSubscription := true
    currentUsage := 1000, monthlyQuota := 1000, billingPeriodEnd := 777
    withinRateLimit := true, usageLogRateOk := true
    validAddress := true, validToken := true
    validMaxDepth := true, validTimeRange := true }

/-- Database with one webhook user (external id ext-1) whose active pro
subscription is past due (period end 970 at today = 1000) with usage 700. -/
def staleRenewDb : Db :=
  { users := [{ id := "u1", email := "a@b.co", subscriptionPlan := "pro"
                subscriptionStatus := "active", apixUserId := some "ext-1" }]
    subs := [{ userId := "u1", plan := "pro", monthlyQuota := 10000
               rateLimitPerMinute := 60, currentUsage := 700
               billingPeriodStart := 940, billingPeriodEnd := 970
               status := "active", priceCents := 5000 }]
    keys := [{ userId := "u1", active := true }]
    webhookLog := [] }

/-- A validly signed user.renewed payload whose timestamp is 600 seconds
(10 minutes) in the past. -/
def staleRenewReq : WebhookReq :=
  { event := "user.renewed", apixUserId := some "ext-1", email := none
    emailValid := true, plan := none, newPlan := none
    timestampAge := 600, secretConfigured := true
    signaturePresent := true, signatureValid := true }

/-- A validly signed, fresh payload with an event outside the four handled
types. -/
def unknownEventReq : WebhookReq :=
  { event := "user.deleted", apixUserId := some "ext-9", email := none
    emailValid := true, plan := none, newPlan := none
    timestampAge := 0, secretConfigured := true
    signaturePresent := true, signatureValid := true }

/-- An empty database. -/
def emptyDb : Db := { users := [], subs := [], keys := [], webhookLog := [] }

/-- Database for the renewal scenario at today = 1000: user u1 (ext-1) has a
CANCELLED past-due subscription with usage 500; user u2 (ext-2) has an
ACTIVE past-due subscription with usage 700. -/
def renewScenarioDb : Db :=
  { users := [{ id := "u1", email := "a@b.co", subscriptionPlan := "starter"
                subscriptionStatus := "cancelled", apixUserId := some "ext-1" },
              { id := "u2", email := "c@d.co", subscriptionPlan := "pro"
                subscriptionStatus := "active", apixUserId := some "ext-2" }]
    subs := [{ userId := "u1", plan := "starter", monthlyQuota := 1000
               rateLimitPerMinute := 10, currentUsage := 500
               billingPeriodStart := 965, billingPeriodEnd := 995
               status := "cancelled", priceCents := 1000 },
             { userId := "u2", plan := "pro", monthlyQuota := 10000
               rateLimitPerMinute := 60, currentUsage := 700
               billingPeriodStart := 969, billingPeriodEnd := 999
               status := "active", priceCents := 5000 }]
    keys := []
    webhookLog := [] }

/-- A validly signed, fresh user.renewed payload for external user ext-1. -/
def renewReqU1 : WebhookReq :=
  { event := "user.renewed", apixUserId := some "ext-1", email := none
    emailValid := true, plan := none, newPlan := none
    timestampAge := 0, secretConfigured := true
    signaturePresent := true, signatureValid := true }

/-- The node the traversal builds for B in the chain scenario. -/
def nodeB : PathNode :=
  { address := "B", entityType := none, entityName := none
    amountIn := 1000000, amountOut := 1000000, timestamp := some 1000 }

/-- The node the traversal builds for C in the chain scenario. -/
def nodeC : PathNode :=
  { address := "C", entityType := none, entityName := none
    amountIn := 1000000, amountOut := 1000000, timestamp := some 2000 }

/-- The node the traversal builds for D in the chain scenario. -/
def nodeD : PathNode :=
  { address := "D", entityType := none, entityName := none
    amountIn := 1000000, amountOut := 1000000, timestamp := some 3000 }

/-- The node the traversal builds for E in the chain scenario. -/
def nodeE : PathNode :=
  { address := "E", entityType := none, entityName := none
    amountIn := 1000000, amountOut := 1000000, timestamp := some 4000 }

/-- Hops for the C8 counterexample: aggregate 1051 flowing into aggregate
1000 (exact ratio 1.051, truncated ratio 1.05). -/
def hopP : PathNode :=
  { address := "P", entityType := none, entityName := none
    amountIn := 1051, amountOut := 1051, timestamp := some 1000 }

/-- Second hop of the C8 counterexample. -/
def hopQ : PathNode :=
  { address := "Q", entityType := none, entityName := none
    amountIn := 1000, amountOut := 1000, timestamp := some 2000 }

/-! ## Helper lemmas -/

/-- Lower bound of the clamp. -/
theorem clamp01_nonneg (q : ℚ) : 0 ≤ clamp01 q := by
  unfold clamp01
  dsimp only
  split_ifs <;> linarith

/-- Upper bound of the clamp. -/
theorem clamp01_le_one (q : ℚ) : clamp01 q ≤ 1 := by
  unfold clamp01
  dsimp only
  split_ifs <;> linarith

/-- The hop factors of the source and of the amended claim wording agree. -/
theorem hopFactor_eq_amendedHopFactor (p c : PathNode) :
    hopFactor p c = amendedHopFactor p c := by
  unfold hopFactor amendedHopFactor amendedRatioFactor
  rfl

/-- Unfolding of the confidence of a two-hop path. -/
theorem calculateConfidence_pair (a b : PathNode) :
    calculateConfidence [a, b] = clamp01 (1 * hopFactor a b) := rfl

/-- Unfolding of the confidence of a four-hop path. -/
theorem calculateConfidence_quad (a b c d : PathNode) :
    calculateConfidence [a, b, c, d] =
      clamp01 (1 * hopFactor a b * hopFactor b c * hopFactor c d) := rfl

/-! ## Claim theorems -/

/-- C10: calculateConfidence is total on every hop list and always returns a
value in [0,1]; it returns 0 for the empty list and 1.0 for a single-hop
list; and a hop pair whose current amountIn is zero contributes the factor
0.5 with the ratio division skipped. -/
theorem calculateConfidence_total_and_bounded :
    (∀ path : List PathNode,
        0 ≤ calculateConfidence path ∧ calculateConfidence path ≤ 1) ∧
    calculateConfidence [] = 0 ∧
    (∀ n : PathNode, calculateConfidence [n] = 1) ∧
    (∀ prevNode currentNode : PathNode,
        hopFactor prevNode { currentNode with amountIn := 0 } = 1/2) := by
  refine ⟨?_, rfl, fun n => rfl, fun p c => rfl⟩
  intro path
  rcases path with _ | ⟨a, _ | ⟨b, rest⟩⟩
  · exact ⟨le_refl 0, by norm_num [calculateConfidence]⟩
  · exact ⟨by norm_num [calculateConfidence], le_refl 1⟩
  · exact ⟨clamp01_nonneg _, clamp01_le_one _⟩

/-- C3: for every combination of check outcomes, the assessment produced by
assessRisk has riskScore 100 when a sanctioned_direct flag is present and
otherwise the sum of the claimed weights clamped to [0,100], and its
riskLevel follows the thresholds low < 25 ≤ medium < 50 ≤ high < 75 ≤
critical on the risk score. -/
theorem assessRisk_matches_claim :
    ∀ (m v ci p sd s2 : Bool),
      (assessRisk (RiskChecks.mk m v ci p sd s2)).riskScore =
        (if (assessRisk (RiskChecks.mk m v ci p sd s2)).flags.any
              (fun f => f.1 = "sanctioned_direct")
         then 100
         else min (claimWeightSum (RiskChecks.mk m v ci p sd s2)) 100) ∧
      (assessRisk (RiskChecks.mk m v ci p sd s2)).riskLevel =
        claimLevel (assessRisk (RiskChecks.mk m v ci p sd s2)).riskScore := by
  decide

/-- C1: for the authenticated over-quota request, dispatching the middleware
list that index.ts registers for POST /api/v1/analyze/path reaches the
analysis handler and answers 200 (the quota middleware, mounted after the
routes, is never executed), even though trackUsageAndEnforceQuota itself
would reject the request with 429 Quota exceeded carrying
resetDate = billingPeriodEnd. -/
theorem analyzePath_quota_never_enforced :
    dispatch analyzePathPipeline overQuotaRequest =
      some (200, "path analysis", none) ∧
    trackUsageAndEnforceQuota overQuotaRequest =
      MwStep.respond 429 "Quota exceeded" (some 777) := by
  exact ⟨rfl, rfl⟩

/-- C2: on the chain A to B to C to D to E with one transfer of 1 000 000
per edge, forward analysis from A with maxDepth 5 yields exactly one path,
but its hops are [B, C, D, E] (the origin node is never appended), with
hopCount 4, totalAmount 4 000 000, startAddress B and confidence 1. -/
theorem buildForwardPath_chain_eval :
    chainPaths = [createFlowPath [nodeB, nodeC, nodeD, nodeE] chainMint] ∧
    (createFlowPath [nodeB, nodeC, nodeD, nodeE] chainMint).hops.map (·.address)
      = ["B", "C", "D", "E"] ∧
    (createFlowPath [nodeB, nodeC, nodeD, nodeE] chainMint).hopCount = 4 ∧
    (createFlowPath [nodeB, nodeC, nodeD, nodeE] chainMint).totalAmount
      = 4000000 ∧
    (createFlowPath [nodeB, nodeC, nodeD, nodeE] chainMint).startAddress
      = "B" ∧
    (createFlowPath [nodeB, nodeC, nodeD, nodeE] chainMint).confidenceScore
      = 1 := by
  refine ⟨rfl, by decide, rfl, by decide, rfl, ?_⟩
  show calculateConfidence [nodeB, nodeC, nodeD, nodeE] = 1
  rw [calculateConfidence_quad]
  have hBC : hopFactor nodeB nodeC = 1 := by
    norm_num [hopFactor, nodeB, nodeC, intAbs]; simp
  have hCD : hopFactor nodeC nodeD = 1 := by
    norm_num [hopFactor, nodeC, nodeD, intAbs]; simp
  have hDE : hopFactor nodeD nodeE = 1 := by
    norm_num [hopFactor, nodeD, nodeE, intAbs]; simp
  rw [hBC, hCD, hDE]
  norm_num [clamp01]

/-- C9: exploring forward from A over the graph A to B, A to C, C to B
terminates with B still in the visited set (the no-transfers leaf exit
returns without the delete), so the sibling branch through C finds B
visited and its path [C, B] is silently dropped: only the single-hop path
[B] is emitted. -/
theorem exploreForward_visited_leak_eval :
    leakResult.1 = ["B"] ∧
    leakResult.2.map (fun p => p.hops.map (·.address)) = [["B"]] := by
  decide

/-- C5: the validly signed user.renewed payload whose timestamp lies 10
minutes in the past is accepted (status 200) and mutates subscription state
(usage 700 becomes 0 and the billing window moves, where the claim demands
rejection with no state change); moreover signature verification is
independent of the payload age, since verifyWebhookSignature never reads
the timestamp. -/
theorem webhook_stale_payload_processed :
    (webhookEndpoint staleRenewReq 1000 (fun d => d + 30) staleRenewDb).1
      = 200 ∧
    (webhookEndpoint staleRenewReq 1000 (fun d => d + 30) staleRenewDb).2.subs
      = [{ userId := "u1", plan := "pro", monthlyQuota := 10000
           rateLimitPerMinute := 60, currentUsage := 0
           billingPeriodStart := 970, billingPeriodEnd := 1000
           status := "active", priceCents := 5000 }] ∧
    (∀ age : ℤ,
      verifyWebhookSignature { staleRenewReq with timestampAge := age }
        = none) := by
  refine ⟨rfl, by decide, fun age => rfl⟩

/-- C6: a validly signed webhook with the unhandled event user.deleted is
answered by the default switch branch with status 200, not 400. -/
theorem webhook_unknown_event_responds_200 :
    webhookEndpoint unknownEventReq 1000 (fun d => d + 30) emptyDb
      = (200, { emptyDb with webhookLog := ["user.deleted"] }) := by
  decide

/-- C7: processing user.renewed for external user ext-1 (user u1, whose
cancelled past-due subscription has usage 500) leaves the subscription of u1
completely unchanged - not reactivated, usage not reset - while resetting
the subscription of the unrelated user u2, because the handler runs the
global reset_monthly_usage() which touches every ACTIVE subscription whose
billing period end has passed. -/
theorem renewed_runs_global_reset_eval :
    (webhookEndpoint renewReqU1 1000 (fun d => d + 30) renewScenarioDb).1
      = 200 ∧
    (webhookEndpoint renewReqU1 1000 (fun d => d + 30) renewScenarioDb).2.subs
      = [{ userId := "u1", plan := "starter", monthlyQuota := 1000
           rateLimitPerMinute := 10, currentUsage := 500
           billingPeriodStart := 965, billingPeriodEnd := 995
           status := "cancelled", priceCents := 1000 },
         { userId := "u2", plan := "pro", monthlyQuota := 10000
           rateLimitPerMinute := 60, currentUsage := 0
           billingPeriodStart := 999, billingPeriodEnd := 1029
           status := "active", priceCents := 5000 }] := by
  decide

/-- C8 counterexample: for the persisted path over hops with aggregates
1051 and 1000, the stored confidence (computed with the truncated
two-decimal ratio, giving 1.0) differs from the recomputation with the
exact ratio as the claim words it (1.051 falls outside [0.95, 1.05],
giving 0.95) by 0.05, far beyond the 1e-9 tolerance. -/
theorem persisted_confidence_differs_from_exact_rule :
    specConfidenceExact [hopP, hopQ] + 1/1000000000
      < (createFlowPath [hopP, hopQ] "M").confidenceScore := by
  have hcode : (createFlowPath [hopP, hopQ] "M").confidenceScore = 1 := by
    show calculateConfidence [hopP, hopQ] = 1
    rw [calculateConfidence_pair]
    have h : hopFactor hopP hopQ = 1 := by
      norm_num [hopFactor, hopP, hopQ, intAbs]; simp
    rw [h]
    norm_num [clamp01]
  have hexact : specConfidenceExact [hopP, hopQ] = 19/20 := by
    have h : claimHopFactorExact hopP hopQ = 19/20 := by
      norm_num [claimHopFactorExact, claimRatioFactorExact, hopP, hopQ, intAbs]; simp
    simp only [specConfidenceExact, List.zip_cons_cons, List.tail_cons,
      List.zip_nil_right, List.map_cons, List.map_nil, List.prod_cons,
      List.prod_nil, h]
    norm_num [clamp01]
  rw [hcode, hexact]
  norm_num

/-- C8 amended: for every persisted FlowPath built by createFlowPath, the
stored confidenceScore equals the recomputation of the multiplicative rule
over its hops where the ratio is the two-decimal truncation
floor(100 * prevOut / currIn) / 100 and a zero-amountIn hop contributes 0.5
with the DEX and time factors skipped, the result clamped to [0,1]. -/
theorem persisted_confidence_matches_amended_rule :
    ∀ (nodes : List PathNode) (tokenMint : String),
      (createFlowPath nodes tokenMint).confidenceScore
        = specConfidenceAmended nodes := by
  intro nodes tokenMint
  show calculateConfidence nodes = specConfidenceAmended nodes
  match nodes with
  | [] => rfl
  | [n] =>
      show (1 : ℚ) = specConfidenceAmended [n]
      simp [specConfidenceAmended, clamp01]
  | a :: b :: rest =>
      show clamp01 _ = specConfidenceAmended (a :: b :: rest)
      unfold specConfidenceAmended
      rw [if_neg (by simp)]
      congr 1
      rw [List.prod_eq_foldl, List.foldl_map]
      simp only [hopFactor_eq_amendedHopFactor]

/-- C4 counterexample: with a cold cache and an upstream that answers HTTP
503, getTokenTransfers returns the normal result Except.ok [] and never an
error, contradicting the claim that retry exhaustion or an open circuit
surfaces an Upstream* error to the caller. -/
theorem getTokenTransfers_failure_yields_ok_empty :
    getTokenTransfers "M" none (fun _ => FetchOutcome.httpError 503)
      = Except.ok [] := rfl

/-- C4 amended: getTokenTransfers makes at most one upstream fetch - its
result depends only on attempt 0, so there is no retry and the constructed
circuit breaker is never consulted - and it never surfaces an error: every
call returns Except.ok. -/
theorem getTokenTransfers_single_attempt_never_errors :
    (∀ (tokenMint : String) (cached : Option (List Transfer))
        (f g : ℕ → FetchOutcome), f 0 = g 0 →
        getTokenTransfers tokenMint cached f
          = getTokenTransfers tokenMint cached g) ∧
    (∀ (tokenMint : String) (cached : Option (List Transfer))
        (f : ℕ → FetchOutcome),
        ∃ xs, getTokenTransfers tokenMint cached f = Except.ok xs) := by
  constructor
  · intro tm cached f g h
    unfold getTokenTransfers
    cases cached with
    | some c => rfl
    | none => rw [h]
  · intro tm cached f
    unfold getTokenTransfers
    cases cached with
    | some c => exact ⟨c, rfl⟩
    | none =>
        cases h0 : f 0 with
        | ok txs => exact ⟨flattenTokenTransfers tm txs, rfl⟩
        | httpError s => exact ⟨[], rfl⟩

/-- Witness for the amended C4 theorem at concrete inputs: the outcome of
attempt 1 is irrelevant (no retry happens), and the call returns ok. -/
theorem getTokenTransfers_single_attempt_never_errors_witness :
    (getTokenTransfers "M" none (fun _ => FetchOutcome.ok [])
      = getTokenTransfers "M" none
          (fun n => if n = 0 then FetchOutcome.ok []
                    else FetchOutcome.httpError 500)) ∧
    (∃ xs, getTokenTransfers "M" none (fun _ => FetchOutcome.ok [])
      = Except.ok xs) :=
  ⟨getTokenTransfers_single_attempt_never_errors.1 "M" none _ _ rfl,
   getTokenTransfers_single_attempt_never_errors.2 "M" none _⟩

end TokenFlow
